import Mathlib

/-!
Verification of the faviconx generator (src/faviconx/__main__.py) against its
specification. The Python module is shallowly embedded: the static icon table,
the tier-selection predicate, the filename-prefix substitution, the generation
loop with its exception structure, and the two metadata renderers are
translated into executable Lean definitions; images and encoded file contents
are represented symbolically, and the external encoder's possible per-item
failures are injected through an explicit oracle.
-/

namespace Faviconx

/-! ## Python string primitives

The source uses `str.startswith`, `str.replace(old, new, 1)`, `"sub" in s`
and `str.endswith`. These are modelled on the character lists underlying
Lean strings, with Python's semantics. -/

/-- Python `p.isPrefixOf`-style test: `s.startswith(p)`. -/
def pyStartswith (s p : String) : Bool :=
  p.data.isPrefixOf s.data

/-- Helper for `str.replace(old, new, 1)` on character lists: replace the
first (leftmost) occurrence of `pat` by `rep`. -/
def replFirstAux (pat rep : List Char) : List Char → List Char
  | [] => if pat.isPrefixOf [] then rep else []
  | c :: rest =>
    if pat.isPrefixOf (c :: rest) then rep ++ (c :: rest).drop pat.length
    else c :: replFirstAux pat rep rest

/-- Python `s.replace(old, new, 1)`: replace only the first occurrence. -/
def pyReplaceFirst (s old new : String) : String :=
  ⟨replFirstAux old.data new.data s.data⟩

/-- Python `sub in s`: substring containment. -/
def pyContains (s sub : String) : Bool :=
  decide (sub.data <:+: s.data)

/-- Python `s.endswith(suf)`. -/
def pyEndswith (s suf : String) : Bool :=
  suf.data.reverse.isPrefixOf s.data.reverse

/-- Helper for Python `s.split(sep)` with a one-character separator. -/
def splitCharAux (sep : Char) : List Char → List Char → List (List Char)
  | [], acc => [acc.reverse]
  | c :: rest, acc =>
    if c = sep then acc.reverse :: splitCharAux sep rest []
    else splitCharAux sep rest (c :: acc)

/-- Python `s.split(sep)` for a one-character separator. -/
def pySplit (s : String) (sep : Char) : List String :=
  (splitCharAux sep s.data []).map (fun l => ⟨l⟩)

/-- Python `s.replace(old, new)` for one-character `old` and `new` (the only
all-occurrence replacement the source performs). -/
def pyReplaceChar (s : String) (old new : Char) : String :=
  ⟨s.data.map (fun c => if c = old then new else c)⟩

/-- Python `s.strip()`. -/
def pyStrip (s : String) : String :=
  ⟨((s.data.dropWhile Char.isWhitespace).reverse.dropWhile Char.isWhitespace).reverse⟩

/-- Python `s.upper()` (ASCII-only, which covers every status code used). -/
def pyUpper (s : String) : String :=
  ⟨s.data.map Char.toUpper⟩

/-- Python `int(s)` restricted to unsigned decimal numerals, the only form
appearing in the size column; any other string raises, modelled as `none`. -/
def pyIntNat (s : String) : Option Nat :=
  if s.data ≠ [] ∧ s.data.all Char.isDigit then
    some (s.data.foldl (fun n c => n * 10 + (c.toNat - 48)) 0)
  else none

/-! ## Data model

One row of the module-level `ICON_SIZES` table: a size tag (either a pixel
size such as `"16×16"`, or the sentinel strings `"ICO"` / `"SVG"`), the
canonical filename, the usage note and the importance tier (the source calls
it `option`). -/

structure Icon where
  size : String
  filename : String
  usage : String
  option : String
deriving DecidableEq, Repr

/-- The module-level `ICON_SIZES` table, verbatim from the source. -/
def ICON_SIZES : List Icon := [
  ⟨"ICO", "favicon.ico", "Windows icon format. Contains multiple sizes in one file.", "Required"⟩,
  ⟨"16×16", "favicon-16x16.png", "Browser tab favicon (classic). Minimum requirement for all browsers.", "Required"⟩,
  ⟨"SVG", "favicon.svg", "Scalable vector format. Perfect for crisp display at any size.", "Required"⟩,
  ⟨"32×32", "favicon-32x32.png", "High-DPI favicons / pinned tabs. Used on retina screens, tab previews.", "Recommended"⟩,
  ⟨"48×48", "favicon-48x48.png", "Windows .ico format (legacy). Included in .ico bundles.", "Optional"⟩,
  ⟨"64×64", "favicon-64x64.png", "Windows 7+ tile icon (legacy). Rarely used now.", "Optional"⟩,
  ⟨"57×57", "favicon-57x57.png", "iOS 6 (iPhone 1–3) home screen. Deprecated but used for backward compatibility.", "Legacy"⟩,
  ⟨"72×72", "favicon-72x72.png", "iOS 6 (iPad). For old iPad models.", "Legacy"⟩,
  ⟨"96×96", "favicon-96x96.png", "Android 2.3+ launcher icons (deprecated). Historical support.", "Optional"⟩,
  ⟨"114×114", "favicon-114x114.png", "iPhone Retina (iOS 4–6). Useful for legacy iPhones.", "Optional"⟩,
  ⟨"120×120", "favicon-120x120.png", "iPhone Retina (iOS 7+). Still used on some devices.", "Recommended"⟩,
  ⟨"128×128", "favicon-128x128.png", "Chrome Web Store app icon (legacy). Only needed for Chrome Web Store apps.", "Optional"⟩,
  ⟨"144×144", "favicon-144x144.png", "Windows 8+ tile icon. Required for Microsoft tiles.", "Recommended"⟩,
  ⟨"150×150", "favicon-150x150.png", "Microsoft Teams / Outlook preview. Some Microsoft services prefer this.", "Optional"⟩,
  ⟨"152×152", "favicon-152x152.png", "iPad Retina (iOS 7+). Common for newer iPads.", "Recommended"⟩,
  ⟨"167×167", "favicon-167x167.png", "iPad Pro Retina. Used in newer iPads (Pro).", "Recommended"⟩,
  ⟨"180×180", "favicon-180x180.png", "iOS Safari home screen (iOS 8+). Most used for iPhones and iPads added to home screen.", "Required"⟩,
  ⟨"192×192", "favicon-192x192.png", "Android Chrome home screen / PWA icon. Must-have for PWAs on Android.", "Required"⟩,
  ⟨"256×256", "favicon-256x256.png", "Windows & Linux high-res icons. Used by some desktop environments.", "Optional"⟩,
  ⟨"384×384", "favicon-384x384.png", "Android launcher (high-res devices). For high-DPI Android devices.", "Optional"⟩,
  ⟨"512×512", "favicon-512x512.png", "Android splash / PWA install dialog icon. Required by manifest.webmanifest.", "Required"⟩,
  ⟨"1024×1024", "favicon-1024x1024.png", "iOS App Store icons (for native apps, not web). Not used in web, but can be included for completeness.", "Optional"⟩
]

/-! ## Tier selection and filenames

`FaviconGenerator.should_generate` and `FaviconGenerator.get_filename`.
Python sets of tier names are modelled as lists used only through
membership, matching every use in the source. -/

/-- `FaviconGenerator.should_generate`. -/
def should_generate (icon_options : List String) (icon : Icon) : Bool :=
  if icon_options.contains "all" then true
  else icon_options.contains icon.option

/-- The selection performed by the `for icon in ICON_SIZES` loop of
`generate_all_favicons`: the table rows passing `should_generate`, in table
order. -/
def selectSpecs (table : List Icon) (icon_options : List String) : List Icon :=
  table.filter (fun icon => should_generate icon_options icon)

/-- `FaviconGenerator.get_filename`: replace a leading `favicon` in the
canonical filename by the configured file-name stem `pre`. -/
def get_filename (pre : String) (icon : Icon) : String :=
  if pyStartswith icon.filename "favicon" then
    pyReplaceFirst icon.filename "favicon" pre
  else icon.filename

/-! ## CLI option resolution (the `main` entry point) -/

/-- The `option_map` dictionary in `main`, as a function on the five values
admitted by the `click.Choice`. -/
def option_map (o : String) : List String :=
  if o = "required" then ["Required"]
  else if o = "recommended" then ["Required", "Recommended"]
  else if o = "required-recommended" then ["Required", "Recommended"]
  else if o = "optional" then ["Required", "Recommended", "Optional"]
  else ["Required", "Recommended", "Optional", "Legacy"]

/-- The `status_to_option` dictionary lookup with its `.get(_, 'Required')`
default, in `main`. -/
def status_to_option (s : String) : String :=
  if s = "R" then "Required"
  else if s = "RC" then "Recommended"
  else if s = "O" then "Optional"
  else if s = "L" then "Legacy"
  else "Required"

/-- The set comprehension over `icon_status.split(",")` in `main`, with each
code stripped and upper-cased before the lookup. -/
def parse_icon_status (icon_status : String) : List String :=
  (pySplit icon_status ',').map
    (fun s => status_to_option (pyUpper (pyStrip s)))

/-- How `main` resolves the tier set: the named flag wins unless left at its
default `all`, in which case the legacy comma-coded flag is decoded. -/
def resolve_options (optionFlag icon_status : String) : List String :=
  if optionFlag ≠ "all" then option_map optionFlag
  else parse_icon_status icon_status

/-! ## Images and encoded outputs

The image library is an external collaborator; images and resampling are
represented symbolically so that which resample was requested, at which
size and with which filter, is recorded exactly. -/

/-- The resampling filters offered by the image library. -/
inductive ResampleFilter
  | nearest
  | bilinear
  | bicubic
  | lanczos
deriving DecidableEq, Repr

/-- A symbolic raster image: a loaded source, or the result of a resize. -/
inductive Img
  | src (id : Nat)
  | resized (base : Img) (w h : Nat) (f : ResampleFilter)
deriving DecidableEq, Repr

/-- `FaviconGenerator.resize_image`: the source always passes
`Image.Resampling.LANCZOS`. -/
def resize_image (image : Img) (size : Nat × Nat) : Img :=
  .resized image size.1 size.2 .lanczos

/-- The manifest `icons` entries built by `generate_webmanifest`. -/
structure ManifestIcon where
  src : String
  sizes : String
  type : String
deriving DecidableEq, Repr

/-- Symbolic contents of a written output file: a PNG encoding of an image,
a multi-resolution ICO bundle of several images, the SVG wrapper document
(recording its width/height attributes, viewBox extent, and the image whose
base64 PNG encoding is embedded), the HTML document (recording its link-tag
lines), or the serialized web manifest (recording its icons array). -/
inductive FileContent
  | png (img : Img)
  | ico (entries : List Img)
  | svgWrap (width height viewW viewH : Nat) (embeddedPngOf : Img)
  | htmlDoc (tags : List String)
  | manifestDoc (icons : List ManifestIcon)
deriving DecidableEq, Repr

/-- `FaviconGenerator.generate_png_favicon`: one LANCZOS resize to the exact
target dimensions, saved as PNG under `filename`. -/
def generate_png_favicon (image : Img) (size : Nat × Nat) (filename : String) :
    String × FileContent :=
  (filename, .png (resize_image image size))

/-- `FaviconGenerator.generate_ico_favicon`: resizes to the fixed list
`[(16,16), (32,32), (48,48)]` and saves all three into one ICO file. -/
def generate_ico_favicon (image : Img) (filename : String) :
    String × FileContent :=
  let ico_sizes : List (Nat × Nat) := [(16, 16), (32, 32), (48, 48)]
  (filename, .ico (ico_sizes.map (fun size => resize_image image size)))

/-- `FaviconGenerator.generate_svg_favicon`: writes an SVG document with
literal attributes `width="32" height="32" viewBox="0 0 32 32"` whose single
element embeds the base64 PNG encoding of the (unresized) source image. -/
def generate_svg_favicon (image : Img) (filename : String) :
    String × FileContent :=
  (filename, .svgWrap 32 32 32 32 image)

/-! ## The generation pass (`generate_all_favicons`) -/

/-- The entry the loop appends to `self.generated_icons`: a copy of the
table row plus the `generated` flag and the `actual_filename`. -/
structure GenResult where
  icon : Icon
  generated : Bool
  actual_filename : String
deriving DecidableEq, Repr

/-- The size-string parsing in the pixel branch:
`w, h = [int(x) for x in icon["size"].replace('×', 'x').split('x')]`.
`none` models the `ValueError` raised on a non-numeric part or a part count
other than two, which the surrounding `try` catches. -/
def parseSize (s : String) : Option (Nat × Nat) :=
  match (pySplit (pyReplaceChar s '×' 'x') 'x').map pyIntNat with
  | [some w, some h] => some (w, h)
  | _ => none

/-- The `for icon in ICON_SIZES` loop of `generate_all_favicons`, with the
external encoder's possible failures injected through `encodeFails` (true
means saving that item raises). Returns the accumulated
`self.generated_icons` entries, the files written, and whether an uncaught
exception escaped the loop (the ICO and SVG branches have no per-item
`try`, so their failures propagate to the outer handler; the pixel branch
catches its own failures and appends `generated=False`). On an escape the
failing item appends no entry and no later item is processed. -/
def genLoop (pre : String) (icon_options : List String) (image : Img)
    (encodeFails : Icon → Bool) :
    List Icon → List GenResult × List (String × FileContent) × Bool
  | [] => ([], [], false)
  | icon :: rest =>
    if ¬ should_generate icon_options icon then
      genLoop pre icon_options image encodeFails rest
    else
      let filename := get_filename pre icon
      if icon.size = "ICO" then
        if encodeFails icon then ([], [], true)
        else
          let out := genLoop pre icon_options image encodeFails rest
          (⟨icon, true, filename⟩ :: out.1,
           generate_ico_favicon image filename :: out.2.1, out.2.2)
      else if icon.size = "SVG" then
        if encodeFails icon then ([], [], true)
        else
          let out := genLoop pre icon_options image encodeFails rest
          (⟨icon, true, filename⟩ :: out.1,
           generate_svg_favicon image filename :: out.2.1, out.2.2)
      else
        match parseSize icon.size with
        | none =>
          let out := genLoop pre icon_options image encodeFails rest
          (⟨icon, false, filename⟩ :: out.1, out.2.1, out.2.2)
        | some wh =>
          if encodeFails icon then
            let out := genLoop pre icon_options image encodeFails rest
            (⟨icon, false, filename⟩ :: out.1, out.2.1, out.2.2)
          else
            let out := genLoop pre icon_options image encodeFails rest
            (⟨icon, true, filename⟩ :: out.1,
             generate_png_favicon image wh filename :: out.2.1, out.2.2)

/-- The load-time failures of `FaviconGenerator.load_source_image`. -/
inductive LoadError
  | SourceNotFound
  | DecodeError
deriving DecidableEq, Repr

/-- `FaviconGenerator.load_source_image`: raises `FileNotFoundError` when
the source path does not exist; decoding/rasterization by the external
library either yields an image or raises (`decoded = none`). -/
def load_source_image (source_exists : Bool) (decoded : Option Img) :
    Except LoadError Img :=
  if ¬ source_exists then .error .SourceNotFound
  else
    match decoded with
    | some image => .ok image
    | none => .error .DecodeError

/-- `FaviconGenerator.generate_all_favicons`: loads the source, runs the
loop, and on any uncaught exception prints the error and calls
`sys.exit(1)`. Result: the `generated_icons` list, the files written, and
`some code` when the process exited. -/
def generate_all_favicons (source_exists : Bool) (decoded : Option Img)
    (pre : String) (icon_options : List String) (encodeFails : Icon → Bool) :
    List GenResult × List (String × FileContent) × Option Nat :=
  match load_source_image source_exists decoded with
  | .error _ => ([], [], some 1)
  | .ok image =>
    let out := genLoop pre icon_options image encodeFails ICON_SIZES
    (out.1, out.2.1, if out.2.2 then some 1 else none)

/-! ## Metadata emitter (`HTMLGenerator`) -/

/-- The pixel sizes routed to the `apple-touch-icon` branch of
`generate_html`. -/
def appleSizes : List String :=
  ["180×180", "167×167", "152×152", "120×120", "57×57", "72×72",
   "114×114", "144×144", "150×150"]

/-- The tag chosen for one generated icon by the `if`/`elif` chain of
`generate_html`; `none` when no branch matches and no tag is appended. -/
def meta_tag (icon : Icon) (filename : String) : Option String :=
  if icon.size = "ICO" then
    some ("<link rel=\"icon\" type=\"image/x-icon\" href=\"" ++ filename ++ "\">")
  else if icon.size = "SVG" then
    some ("<link rel=\"icon\" type=\"image/svg+xml\" href=\"" ++ filename ++ "\">")
  else if pyContains filename "apple" ∨ icon.size ∈ appleSizes then
    some ("<link rel=\"apple-touch-icon\" sizes=\"" ++ icon.size ++
      "\" href=\"" ++ filename ++ "\">")
  else if icon.size = "192×192" ∨ icon.size = "512×512" then
    some ("<link rel=\"icon\" type=\"image/png\" sizes=\"" ++ icon.size ++
      "\" href=\"" ++ filename ++ "\">")
  else if pyEndswith filename ".png" then
    some ("<link rel=\"icon\" type=\"image/png\" sizes=\"" ++ icon.size ++
      "\" href=\"" ++ filename ++ "\">")
  else none

/-- The `meta_tags` list built by `HTMLGenerator.generate_html`: entries
with `generated` false are skipped, each remaining entry appends at most one
tag line, in input order. -/
def generate_html_tags (generated_icons : List GenResult) : List String :=
  generated_icons.filterMap
    (fun r => if r.generated then meta_tag r.icon r.actual_filename else none)

/-- The `icons` array built by `HTMLGenerator.generate_webmanifest`: only
entries that are generated and whose size is 192×192 or 512×512, each
contributing `src`/`sizes`/`type`. -/
def manifest_icons (generated_icons : List GenResult) : List ManifestIcon :=
  (generated_icons.filter
      (fun r => r.generated ∧ (r.icon.size = "192×192" ∨ r.icon.size = "512×512"))).map
    (fun r => ⟨r.actual_filename, r.icon.size, "image/png"⟩)

/-! ## The CLI driver (`main`) and the output directory -/

/-- The `main` command body after argument parsing: `click.Path(exists=True)`
rejects a missing source with a usage error (exit code 2) before the body
runs; otherwise the generator runs, then unless `--no-html` the emitter
writes `index.html` and `site.webmanifest`. Returns the exit code and the
ordered list of file writes into the output directory. -/
def runMain (source_exists : Bool) (decoded : Option Img) (pre : String)
    (icon_options : List String) (no_html : Bool) (encodeFails : Icon → Bool) :
    Nat × List (String × FileContent) :=
  if ¬ source_exists then (2, [])
  else
    match generate_all_favicons source_exists decoded pre icon_options encodeFails with
    | (_, files, some code) => (code, files)
    | (results, files, none) =>
      if no_html then (0, files)
      else
        (0, files ++
          [("index.html", .htmlDoc (generate_html_tags results)),
           ("site.webmanifest", .manifestDoc (manifest_icons results))])

/-- The output directory as a map from filename to the content last written
there (absent = no such file). -/
def Dir : Type := String → Option FileContent

/-- One `open(path, "w")`-style write: overwrite `name` with `c`. -/
def writeFile (d : Dir) (name : String) (c : FileContent) : Dir :=
  fun n => if n = name then some c else d n

/-- Apply a run's writes to a directory, in order (last writer wins). -/
def applyWrites (d : Dir) : List (String × FileContent) → Dir
  | [] => d
  | (n, c) :: ws => applyWrites (writeFile d n c) ws

/-! ## Helper lemmas -/

theorem contains_eq_true_iff (l : List String) (a : String) :
    l.contains a = true ↔ a ∈ l :=
  List.elem_iff

theorem should_generate_of_mem_all (S : List String) (hall : "all" ∈ S)
    (icon : Icon) : should_generate S icon = true := by
  have h : S.contains "all" = true := (contains_eq_true_iff S "all").mpr hall
  simp only [should_generate, h, if_true]

theorem should_generate_of_not_mem_all (S : List String) (hall : "all" ∉ S)
    (icon : Icon) : should_generate S icon = decide (icon.option ∈ S) := by
  have h : S.contains "all" = false := by
    cases hc : S.contains "all"
    · rfl
    · exact absurd ((contains_eq_true_iff S "all").mp hc) hall
  have h2 : S.contains icon.option = decide (icon.option ∈ S) := by
    cases hc : S.contains icon.option
    · have hm : icon.option ∉ S := fun hm => by
        rw [(contains_eq_true_iff S icon.option).mpr hm] at hc
        cases hc
      simp [hm]
    · simp [(contains_eq_true_iff S icon.option).mp hc]
  simp only [should_generate, h, Bool.false_eq_true, if_false, h2]

theorem replFirstAux_of_isPrefixOf (pat rep : List Char) (l : List Char)
    (h : pat.isPrefixOf l = true) :
    replFirstAux pat rep l = rep ++ l.drop pat.length := by
  cases l with
  | nil =>
    have hp : pat = [] := by
      cases pat with
      | nil => rfl
      | cons a as => simp [List.isPrefixOf] at h
    subst hp
    simp [replFirstAux]
  | cons c rest =>
    simp [replFirstAux, h]

theorem pyEndswith_append (p t : List Char) (suf : String)
    (h : pyEndswith ⟨t⟩ suf = true) : pyEndswith ⟨p ++ t⟩ suf = true := by
  simp only [pyEndswith, List.isPrefixOf_iff_prefix] at h ⊢
  simp only [List.reverse_append]
  exact h.trans (List.prefix_append t.reverse p.reverse)

/-! ## Claim theorems -/

/-- C2: for every set of selected tiers S, the selection step returns
exactly the ordered subsequence of the static table whose tier is in S,
preserving table order; if S contains the wildcard "all" it returns the
full table unmodified; an empty S yields an empty result (the function is
total, so there is no error case). -/
theorem c2_selectSpecs (S : List String) :
    ("all" ∈ S → selectSpecs ICON_SIZES S = ICON_SIZES) ∧
    ("all" ∉ S →
      selectSpecs ICON_SIZES S = ICON_SIZES.filter (fun i => i.option ∈ S)) ∧
    List.Sublist (selectSpecs ICON_SIZES S) ICON_SIZES ∧
    (∀ i, i ∈ selectSpecs ICON_SIZES S ↔
      i ∈ ICON_SIZES ∧ should_generate S i = true) ∧
    (S = [] → selectSpecs ICON_SIZES S = []) := by
  refine ⟨?_, ?_, ?_, ?_, ?_⟩
  · intro hall
    exact List.filter_eq_self.mpr (fun i _ => should_generate_of_mem_all S hall i)
  · intro hall
    exact List.filter_congr (fun i _ => should_generate_of_not_mem_all S hall i)
  · exact List.filter_sublist ICON_SIZES
  · intro i
    exact List.mem_filter
  · rintro rfl
    decide

/-- C2 witness: concrete instances of the selection contract. -/
theorem c2_selectSpecs_witness :
    selectSpecs ICON_SIZES ["all"] = ICON_SIZES ∧
    selectSpecs ICON_SIZES ["Required"] =
      ICON_SIZES.filter (fun i => i.option ∈ ["Required"]) ∧
    selectSpecs ICON_SIZES [] = [] :=
  ⟨(c2_selectSpecs ["all"]).1 (by decide),
   (c2_selectSpecs ["Required"]).2.1 (by decide),
   (c2_selectSpecs []).2.2.2.2 rfl⟩

/-- C3: the effective-filename function replaces only a leading literal
`favicon` in the canonical filename by the configured stem and otherwise
returns the filename unchanged; it is a total pure string function, and on
the stem `icon` it maps `favicon-32x32.png` to `icon-32x32.png` and
`favicon.ico` to `icon.ico`. -/
theorem c3_get_filename (pre : String) (icon : Icon) :
    (pyStartswith icon.filename "favicon" = true →
      get_filename pre icon = pre ++ ⟨icon.filename.data.drop 7⟩) ∧
    (pyStartswith icon.filename "favicon" = false →
      get_filename pre icon = icon.filename) ∧
    get_filename "icon" ⟨"32×32", "favicon-32x32.png", "", "Recommended"⟩ =
      "icon-32x32.png" ∧
    get_filename "icon" ⟨"ICO", "favicon.ico", "", "Required"⟩ = "icon.ico" := by
  refine ⟨?_, ?_, by decide, by decide⟩
  · intro h
    have h7 : ("favicon".data).length = 7 := by decide
    simp only [get_filename, h, if_true, pyReplaceFirst,
      replFirstAux_of_isPrefixOf _ _ _ h, h7]
    rfl
  · intro h
    simp [get_filename, h]

/-- C3 witness: the contract applied at a concrete spec and stem. -/
theorem c3_get_filename_witness :
    get_filename "icon" ⟨"32×32", "favicon-32x32.png", "", "Recommended"⟩ =
      "icon" ++ ⟨"favicon-32x32.png".data.drop 7⟩ ∧
    get_filename "icon" ⟨"16×16", "photo.png", "", "Required"⟩ = "photo.png" :=
  ⟨(c3_get_filename "icon" ⟨"32×32", "favicon-32x32.png", "", "Recommended"⟩).1
      (by decide),
   (c3_get_filename "icon" ⟨"16×16", "photo.png", "", "Required"⟩).2.1
      (by decide)⟩

/-- C6: the legacy comma-coded flag value `ALL` is decoded by a dictionary
lookup whose default is `Required`, so (with `--option` left at its default)
it selects only the Required tier rather than all four tiers: the selection
differs from the full table and from the `R,RC,O,L` selection, contradicting
the flag's own help text. -/
theorem c6_icon_status_all_bug :
    resolve_options "all" "ALL" = ["Required"] ∧
    selectSpecs ICON_SIZES (resolve_options "all" "ALL") ≠ ICON_SIZES ∧
    selectSpecs ICON_SIZES (resolve_options "all" "R,RC,O,L") = ICON_SIZES ∧
    (selectSpecs ICON_SIZES (resolve_options "all" "ALL")).length = 6 ∧
    (selectSpecs ICON_SIZES (resolve_options "all" "ALL")).all
      (fun i => i.option == "Required") = true := by
  refine ⟨by decide, ?_, by decide, by decide, by decide⟩
  intro h
  have : (selectSpecs ICON_SIZES (resolve_options "all" "ALL")).length =
      ICON_SIZES.length := by rw [h]
  revert this
  decide

theorem genLoop_spec (pre : String) (S : List String) (image : Img)
    (f : Icon → Bool) (l : List Icon) :
    (genLoop pre S image f l).2.2 =
      (selectSpecs l S).any
        (fun i => (i.size == "ICO" || i.size == "SVG") && f i) ∧
    ((genLoop pre S image f l).2.2 = false →
      (genLoop pre S image f l).1.map GenResult.icon = selectSpecs l S ∧
      ∀ r ∈ (genLoop pre S image f l).1,
        f r.icon = true → r.generated = false) := by
  induction l with
  | nil => simp [genLoop, selectSpecs]
  | cons icon rest ih =>
    obtain ⟨ih1, ih2⟩ := ih
    by_cases hg : should_generate S icon = true
    · by_cases hico : icon.size = "ICO"
      · by_cases hf : f icon = true
        · refine ⟨?_, ?_⟩
          · simp [genLoop, selectSpecs, List.filter_cons, hg, hico, hf]
          · intro hflag
            simp [genLoop, hg, hico, hf] at hflag
        · refine ⟨?_, ?_⟩
          · simpa [genLoop, selectSpecs, List.filter_cons, hg, hico, hf]
              using ih1
          · intro hflag
            simp only [genLoop, hg, not_true, if_false, hico, if_true] at hflag ⊢
            simp only [hf, if_false] at hflag ⊢
            refine ⟨?_, ?_⟩
            · simp [selectSpecs, List.filter_cons, hg, (ih2 hflag).1]
            · intro r hr
              rcases List.mem_cons.mp hr with hr | hr
              · subst hr
                intro hfr
                exact absurd hfr hf
              · exact (ih2 hflag).2 r hr
      · by_cases hsvg : icon.size = "SVG"
        · by_cases hf : f icon = true
          · refine ⟨?_, ?_⟩
            · simp [genLoop, selectSpecs, List.filter_cons, hg, hico, hsvg, hf]
            · intro hflag
              simp [genLoop, hg, hico, hsvg, hf] at hflag
          · refine ⟨?_, ?_⟩
            · simpa [genLoop, selectSpecs, List.filter_cons, hg, hico, hsvg, hf]
                using ih1
            · intro hflag
              simp only [genLoop, hg, not_true, if_false, hico, hsvg,
                if_true] at hflag ⊢
              simp only [hf, if_false] at hflag ⊢
              refine ⟨?_, ?_⟩
              · simp [selectSpecs, List.filter_cons, hg, (ih2 hflag).1]
              · intro r hr
                rcases List.mem_cons.mp hr with hr | hr
                · subst hr
                  intro hfr
                  exact absurd hfr hf
                · exact (ih2 hflag).2 r hr
        · have hbeq : (icon.size == "ICO" || icon.size == "SVG") = false := by
            have h1 : (icon.size == "ICO") = false := beq_eq_false_iff_ne.mpr hico
            have h2 : (icon.size == "SVG") = false := beq_eq_false_iff_ne.mpr hsvg
            simp [h1, h2]
          cases hps : parseSize icon.size with
          | none =>
            refine ⟨?_, ?_⟩
            · simpa [genLoop, selectSpecs, List.filter_cons, hg, hico, hsvg,
                hps, hbeq] using ih1
            · intro hflag
              simp only [genLoop, hg, not_true, if_false, hico, hsvg,
                hps] at hflag ⊢
              refine ⟨?_, ?_⟩
              · simp [selectSpecs, List.filter_cons, hg, (ih2 hflag).1]
              · intro r hr
                rcases List.mem_cons.mp hr with hr | hr
                · subst hr
                  intro
                  rfl
                · exact (ih2 hflag).2 r hr
          | some wh =>
            by_cases hf : f icon = true
            · refine ⟨?_, ?_⟩
              · simpa [genLoop, selectSpecs, List.filter_cons, hg, hico, hsvg,
                  hps, hf, hbeq] using ih1
              · intro hflag
                simp only [genLoop, hg, not_true, if_false, hico, hsvg, hps,
                  hf, if_true] at hflag ⊢
                refine ⟨?_, ?_⟩
                · simp [selectSpecs, List.filter_cons, hg, (ih2 hflag).1]
                · intro r hr
                  rcases List.mem_cons.mp hr with hr | hr
                  · subst hr
                    intro
                    rfl
                  · exact (ih2 hflag).2 r hr
            · refine ⟨?_, ?_⟩
              · simpa [genLoop, selectSpecs, List.filter_cons, hg, hico, hsvg,
                  hps, hf, hbeq] using ih1
              · intro hflag
                simp only [genLoop, hg, not_true, if_false, hico, hsvg, hps,
                  if_true] at hflag ⊢
                simp only [hf, if_false] at hflag ⊢
                refine ⟨?_, ?_⟩
                · simp [selectSpecs, List.filter_cons, hg, (ih2 hflag).1]
                · intro r hr
                  rcases List.mem_cons.mp hr with hr | hr
                  · subst hr
                    intro hfr
                    exact absurd hfr hf
                  · exact (ih2 hflag).2 r hr
    · have hg' : should_generate S icon = false := by
        cases h : should_generate S icon
        · rfl
        · exact absurd h hg
      refine ⟨?_, ?_⟩
      · simpa [genLoop, selectSpecs, List.filter_cons, hg, hg'] using ih1
      · intro hflag
        simp only [genLoop, hg, not_false_iff, if_true] at hflag ⊢
        refine ⟨?_, (ih2 hflag).2⟩
        simp [selectSpecs, List.filter_cons, hg', (ih2 hflag).1]

/-- C1 counterexample to the claim as stated: with an encoder that fails on
the MultiResolutionIcon item (`favicon.ico`, the first table row), the
failure escapes the loop — the run records no item at all (not even later
ones) and exits with code 1, instead of marking the item
`wasGenerated=false` and continuing. -/
theorem c1_counterexample :
    (genLoop "icon" ["Required", "Recommended", "Optional", "Legacy"]
        (.src 0) (fun i => i.size == "ICO") ICON_SIZES).2.2 = true ∧
    (genLoop "icon" ["Required", "Recommended", "Optional", "Legacy"]
        (.src 0) (fun i => i.size == "ICO") ICON_SIZES).1 = [] ∧
    (genLoop "icon" ["Required", "Recommended", "Optional", "Legacy"]
        (.src 0) (fun i => i.size == "ICO") ICON_SIZES).2.1 = [] ∧
    (generate_all_favicons true (some (.src 0)) "icon"
        ["Required", "Recommended", "Optional", "Legacy"]
        (fun i => i.size == "ICO")).2.2 = some 1 := by
  decide

/-- C1 amended: the run aborts exactly when some selected
MultiResolutionIcon or VectorIcon item fails to encode (their branches have
no per-item handler, so the failure reaches the run-level handler, which
logs it and exits 1); when no selected item of those two kinds fails, the
run completes, every selected item yields exactly one result in table
order, and a pixel-size item whose encode or resample fails is caught
silently and marked `wasGenerated=false` while processing continues. -/
theorem c1_amended (pre : String) (S : List String) (image : Img)
    (encodeFails : Icon → Bool) :
    ((genLoop pre S image encodeFails ICON_SIZES).2.2 =
      (selectSpecs ICON_SIZES S).any
        (fun i => (i.size == "ICO" || i.size == "SVG") && encodeFails i)) ∧
    ((∀ i ∈ selectSpecs ICON_SIZES S,
        (i.size = "ICO" ∨ i.size = "SVG") → encodeFails i = false) →
      (genLoop pre S image encodeFails ICON_SIZES).1.map GenResult.icon =
        selectSpecs ICON_SIZES S ∧
      ∀ r ∈ (genLoop pre S image encodeFails ICON_SIZES).1,
        encodeFails r.icon = true → r.generated = false) := by
  obtain ⟨h1, h2⟩ := genLoop_spec pre S image encodeFails ICON_SIZES
  refine ⟨h1, fun hok => ?_⟩
  have hflag : (genLoop pre S image encodeFails ICON_SIZES).2.2 = false := by
    rw [h1]
    rw [List.any_eq_false]
    intro i hi
    by_cases hico : i.size = "ICO"
    · simp [hico, hok i hi (Or.inl hico)]
    · by_cases hsvg : i.size = "SVG"
      · simp [hsvg, hok i hi (Or.inr hsvg)]
      · have hb1 : (i.size == "ICO") = false := beq_eq_false_iff_ne.mpr hico
        have hb2 : (i.size == "SVG") = false := beq_eq_false_iff_ne.mpr hsvg
        simp [hb1, hb2]
  exact h2 hflag

/-- C1 amended, witness: with all pixel-size encodes failing but the ICO
and SVG encoders healthy, the full-table run completes with one result per
item, and every failing pixel item is marked not generated. -/
theorem c1_amended_witness :
    (genLoop "icon" ["Required", "Recommended", "Optional", "Legacy"]
        (.src 0) (fun i => !(i.size == "ICO") && !(i.size == "SVG"))
        ICON_SIZES).1.map GenResult.icon =
      selectSpecs ICON_SIZES ["Required", "Recommended", "Optional", "Legacy"] ∧
    ∀ r ∈ (genLoop "icon" ["Required", "Recommended", "Optional", "Legacy"]
        (.src 0) (fun i => !(i.size == "ICO") && !(i.size == "SVG"))
        ICON_SIZES).1,
      (fun i => !(i.size == "ICO") && !(i.size == "SVG")) r.icon = true →
        r.generated = false :=
  (c1_amended "icon" ["Required", "Recommended", "Optional", "Legacy"]
    (.src 0) (fun i => !(i.size == "ICO") && !(i.size == "SVG"))).2
    (by decide)

/-- C8: a missing source path makes the run fail with a nonzero exit code
before any generation step, and no file is written to the output directory
(both at the CLI argument check, exit code 2, and — were that bypassed —
at `load_source_image`, exit code 1 with no writes). -/
theorem c8_missing_source (decoded : Option Img) (pre : String)
    (icon_options : List String) (no_html : Bool) (encodeFails : Icon → Bool) :
    runMain false decoded pre icon_options no_html encodeFails = (2, []) ∧
    (runMain false decoded pre icon_options no_html encodeFails).1 ≠ 0 ∧
    (generate_all_favicons false decoded pre icon_options encodeFails).1 = [] ∧
    (generate_all_favicons false decoded pre icon_options encodeFails).2.1 = [] ∧
    (generate_all_favicons false decoded pre icon_options encodeFails).2.2 =
      some 1 := by
  refine ⟨rfl, ?_, rfl, rfl, rfl⟩
  simp [runMain]

/-- C8 witness: the missing-source behaviour at concrete arguments. -/
theorem c8_missing_source_witness :
    runMain false none "icon"
      ["Required", "Recommended", "Optional", "Legacy"] false
      (fun _ => false) = (2, []) :=
  (c8_missing_source none "icon"
    ["Required", "Recommended", "Optional", "Legacy"] false (fun _ => false)).1

theorem applyWrites_apply (ws : List (String × FileContent)) (d : Dir)
    (n : String) :
    applyWrites d ws n =
      ((ws.reverse.find? (fun p => p.1 == n)).map
        (fun p => some p.2)).getD (d n) := by
  induction ws generalizing d with
  | nil => rfl
  | cons hd tl ih =>
    obtain ⟨m, c⟩ := hd
    rw [applyWrites, ih, List.reverse_cons, List.find?_append]
    cases hf : tl.reverse.find? (fun p => p.1 == n) with
    | some p => simp [hf]
    | none =>
      by_cases hmn : m = n
      · subst hmn
        simp [hf, writeFile]
      · have hnm : ¬ n = m := fun h => hmn h.symm
        have hb : (m == n) = false := beq_eq_false_iff_ne.mpr hmn
        simp [hf, writeFile, hnm, List.find?, hb]

theorem applyWrites_idem (d : Dir) (ws : List (String × FileContent)) :
    applyWrites (applyWrites d ws) ws = applyWrites d ws := by
  funext n
  rw [applyWrites_apply ws (applyWrites d ws) n]
  cases hf : ws.reverse.find? (fun p => p.1 == n) with
  | some p =>
    rw [applyWrites_apply ws d n, hf]
    simp
  | none => simp

/-- C9: running the generator twice against the same output directory with
the same source, tier selection, stem and flags is idempotent: the second
run performs exactly the same writes with identical contents, so the
directory state after two runs equals the state after one. -/
theorem c9_rerun_idempotent (source_exists : Bool) (decoded : Option Img)
    (pre : String) (icon_options : List String) (no_html : Bool)
    (encodeFails : Icon → Bool) (d : Dir) :
    applyWrites
        (applyWrites d
          (runMain source_exists decoded pre icon_options no_html
            encodeFails).2)
        (runMain source_exists decoded pre icon_options no_html
          encodeFails).2 =
      applyWrites d
        (runMain source_exists decoded pre icon_options no_html
          encodeFails).2 :=
  applyWrites_idem d _

/-- C7: the MultiResolutionIcon item is the source resampled to exactly
16×16, 32×32 and 48×48 with the LANCZOS filter and bundled into one ICO
file; the VectorIcon item embeds the raster source as bitmap data in a
wrapper document whose logical viewport is fixed at 32×32 — both in
general and as actually written during a run over the table. -/
theorem c7_kind_outputs (image : Img) (filename : String) :
    generate_ico_favicon image filename =
      (filename, FileContent.ico
        [Img.resized image 16 16 ResampleFilter.lanczos,
         Img.resized image 32 32 ResampleFilter.lanczos,
         Img.resized image 48 48 ResampleFilter.lanczos]) ∧
    generate_svg_favicon image filename =
      (filename, FileContent.svgWrap 32 32 32 32 image) ∧
    ("icon.ico", FileContent.ico
        [Img.resized (.src 0) 16 16 ResampleFilter.lanczos,
         Img.resized (.src 0) 32 32 ResampleFilter.lanczos,
         Img.resized (.src 0) 48 48 ResampleFilter.lanczos]) ∈
      (genLoop "icon" ["Required"] (.src 0) (fun _ => false) ICON_SIZES).2.1 ∧
    ("icon.svg", FileContent.svgWrap 32 32 32 32 (.src 0)) ∈
      (genLoop "icon" ["Required"] (.src 0) (fun _ => false) ICON_SIZES).2.1 :=
  ⟨rfl, rfl, by decide, by decide⟩

/-- C4: the manifest icons array has an entry exactly for the generated
results of pixel size 192×192 or 512×512, carrying that result's effective
filename as `src`, its dimensions as `sizes`, and type `image/png`. -/
theorem c4_manifest_icons (results : List GenResult) (e : ManifestIcon) :
    e ∈ manifest_icons results ↔
      ∃ r, r ∈ results ∧ r.generated = true ∧
        (r.icon.size = "192×192" ∨ r.icon.size = "512×512") ∧
        e = ⟨r.actual_filename, r.icon.size, "image/png"⟩ := by
  simp only [manifest_icons, List.mem_map, List.mem_filter, decide_eq_true_eq]
  constructor
  · rintro ⟨r, ⟨hr, hcond⟩, rfl⟩
    exact ⟨r, hr, hcond.1, hcond.2, rfl⟩
  · rintro ⟨r, hr, hgen, hsize, rfl⟩
    exact ⟨r, ⟨hr, hgen, hsize⟩, rfl⟩

/-- C4 witness: the characterization applied to a one-result list. -/
theorem c4_manifest_icons_witness :
    (⟨"icon-192x192.png", "192×192", "image/png"⟩ : ManifestIcon) ∈
      manifest_icons [⟨⟨"192×192", "favicon-192x192.png",
        "Android Chrome home screen / PWA icon. Must-have for PWAs on Android.",
        "Required"⟩, true, "icon-192x192.png"⟩] :=
  (c4_manifest_icons _ _).mpr
    ⟨_, List.mem_singleton.mpr rfl, rfl, Or.inl rfl, rfl⟩

theorem meta_tag_isSome_of_png (icon : Icon) (fn : String)
    (h : pyEndswith fn ".png" = true) : (meta_tag icon fn).isSome = true := by
  unfold meta_tag
  split
  · rfl
  · split
    · rfl
    · split
      · rfl
      · split
        · rfl
        · simp [h]

theorem meta_tag_isSome_of_table (pre : String) (icon : Icon)
    (hmem : icon ∈ ICON_SIZES) :
    (meta_tag icon (get_filename pre icon)).isSome = true := by
  have hall : ∀ i ∈ ICON_SIZES, i.size = "ICO" ∨ i.size = "SVG" ∨
      (pyStartswith i.filename "favicon" = true ∧
        pyEndswith ⟨i.filename.data.drop 7⟩ ".png" = true) := by decide
  rcases hall icon hmem with hico | hsvg | ⟨hstart, hend⟩
  · simp [meta_tag, hico]
  · simp [meta_tag, hsvg]
  · have hpre : ("favicon".data).isPrefixOf icon.filename.data = true := hstart
    have h7 : ("favicon".data).length = 7 := by decide
    have hfn : get_filename pre icon =
        ⟨pre.data ++ icon.filename.data.drop 7⟩ := by
      simp only [get_filename, hstart, if_true, pyReplaceFirst]
      rw [replFirstAux_of_isPrefixOf _ _ _ hpre, h7]
    have hend' : pyEndswith (get_filename pre icon) ".png" = true := by
      rw [hfn]
      exact pyEndswith_append pre.data _ _ hend
    exact meta_tag_isSome_of_png icon _ hend'

theorem generate_html_tags_eq (results : List GenResult)
    (hsome : ∀ r ∈ results,
      (meta_tag r.icon r.actual_filename).isSome = true) :
    generate_html_tags results =
      (results.filter (fun r => r.generated)).map
        (fun r => (meta_tag r.icon r.actual_filename).getD "") := by
  induction results with
  | nil => rfl
  | cons r rs ih =>
    have hr := hsome r (List.mem_cons_self r rs)
    have ih' := ih (fun x hx => hsome x (List.mem_cons_of_mem r hx))
    cases hgen : r.generated
    · simp [generate_html_tags, List.filterMap_cons, List.filter_cons, hgen,
        ih', generate_html_tags] at ih' ⊢
      exact ih'
    · obtain ⟨v, hv⟩ := Option.isSome_iff_exists.mp hr
      simp [generate_html_tags, List.filterMap_cons, List.filter_cons, hgen,
        hv] at ih' ⊢
      exact ih'

/-- C5: the HTML renderer emits exactly one link tag per generated result,
in input order, with the tag chosen by the first matching rule of the fixed
classification chain (multi-resolution icon, vector icon, apple sizes or an
`apple` filename, 192/512 PNG, raster-suffix fallback); ungenerated results
contribute nothing. Stated for every result list drawn from the table with
its effective filename; also evaluated on a full Required-tier run. -/
theorem c5_html_tags (pre : String) (results : List GenResult)
    (h : ∀ r ∈ results, r.icon ∈ ICON_SIZES ∧
      r.actual_filename = get_filename pre r.icon) :
    generate_html_tags results =
      (results.filter (fun r => r.generated)).map
        (fun r => (meta_tag r.icon r.actual_filename).getD "") ∧
    (∀ r ∈ results, (meta_tag r.icon r.actual_filename).isSome = true) ∧
    generate_html_tags
        ((genLoop "icon" ["Required"] (.src 0) (fun _ => false)
          ICON_SIZES).1) =
      ["<link rel=\"icon\" type=\"image/x-icon\" href=\"icon.ico\">",
       "<link rel=\"icon\" type=\"image/png\" sizes=\"16×16\" href=\"icon-16x16.png\">",
       "<link rel=\"icon\" type=\"image/svg+xml\" href=\"icon.svg\">",
       "<link rel=\"apple-touch-icon\" sizes=\"180×180\" href=\"icon-180x180.png\">",
       "<link rel=\"icon\" type=\"image/png\" sizes=\"192×192\" href=\"icon-192x192.png\">",
       "<link rel=\"icon\" type=\"image/png\" sizes=\"512×512\" href=\"icon-512x512.png\">"] := by
  have hsome : ∀ r ∈ results,
      (meta_tag r.icon r.actual_filename).isSome = true := by
    intro r hr
    obtain ⟨hmem, hfn⟩ := h r hr
    rw [hfn]
    exact meta_tag_isSome_of_table pre r.icon hmem
  exact ⟨generate_html_tags_eq results hsome, hsome, by decide⟩

/-- C5 witness: the contract applied to a two-result list drawn from the
table (one generated, one not). -/
theorem c5_html_tags_witness :
    generate_html_tags
        [⟨⟨"ICO", "favicon.ico",
            "Windows icon format. Contains multiple sizes in one file.",
            "Required"⟩, true, "icon.ico"⟩,
         ⟨⟨"512×512", "favicon-512x512.png",
            "Android splash / PWA install dialog icon. Required by manifest.webmanifest.",
            "Required"⟩, false, "icon-512x512.png"⟩] =
      ["<link rel=\"icon\" type=\"image/x-icon\" href=\"icon.ico\">"] := by
  have h := (c5_html_tags "icon"
    [⟨⟨"ICO", "favicon.ico",
        "Windows icon format. Contains multiple sizes in one file.",
        "Required"⟩, true, "icon.ico"⟩,
     ⟨⟨"512×512", "favicon-512x512.png",
        "Android splash / PWA install dialog icon. Required by manifest.webmanifest.",
        "Required"⟩, false, "icon-512x512.png"⟩] (by decide)).1
  rw [h]
  decide

/-- C10: the named option values `recommended` and `required-recommended`
map to the identical tier set (Required and Recommended), so every run with
one behaves exactly as the run with the other; `optional` includes the
Required and Recommended tiers as well as Optional. -/
theorem c10_option_equivalence :
    option_map "recommended" = option_map "required-recommended" ∧
    "Required" ∈ option_map "optional" ∧
    "Recommended" ∈ option_map "optional" ∧
    "Optional" ∈ option_map "optional" ∧
    ∀ (source_exists : Bool) (decoded : Option Img) (pre : String)
      (no_html : Bool) (encodeFails : Icon → Bool),
      runMain source_exists decoded pre (option_map "recommended") no_html
          encodeFails =
        runMain source_exists decoded pre (option_map "required-recommended")
          no_html encodeFails := by
  refine ⟨by decide, by decide, by decide, by decide, ?_⟩
  intro source_exists decoded pre no_html encodeFails
  rfl

end Faviconx
